import Mathlib

/-!
Verification of the BMI-calculator and session-state demo scripts of the
repository `my-streamlit-app`.

The arithmetic of `examples/04_interactive_app.py` is embedded over the exact
rationals `ℚ`: every numeric literal of the source (`18.5`, `0.453592`,
`0.0254`, ...) denotes an exact rational, and Python's `/` on positive
operands is rational division.  The session-state demo of
`examples/05_advanced_features.py` is embedded as a step function on a record
of `Option`-valued session variables (`none` models "key not yet present in
st.session_state"); a rerun of the script executes the guarded
initialisations in source order and then the handler of the single button
(if any) pressed for this rerun.
-/

namespace BMICalc

/-- Function `calculate_bmi` from `04_interactive_app.py` (lines 81-83):
`weight_kg / (height_m ** 2)`. -/
def calculate_bmi (weight_kg height_m : ℚ) : ℚ :=
  weight_kg / (height_m ^ 2)

/-- Function `get_bmi_category` from `04_interactive_app.py` (lines 85-94):
returns the triple (category name, emoji, colour). -/
def get_bmi_category (bmi : ℚ) : String × String × String :=
  if bmi < 18.5 then ("Underweight", "🔵", "#3498db")
  else if 18.5 ≤ bmi ∧ bmi < 25 then ("Normal weight", "🟢", "#2ecc71")
  else if 25 ≤ bmi ∧ bmi < 30 then ("Overweight", "🟡", "#f39c12")
  else ("Obese", "🔴", "#e74c3c")

/-- Metric branch (lines 53-59): `weight_kg = weight`. -/
def metric_weight_kg (weight : ℚ) : ℚ := weight

/-- Metric branch (lines 53-59): `height_m = height / 100`. -/
def metric_height_m (height : ℚ) : ℚ := height / 100

/-- Imperial branch (lines 61-68): `weight_kg = weight_lbs * 0.453592`. -/
def imperial_weight_kg (weight_lbs : ℚ) : ℚ := weight_lbs * 0.453592

/-- Imperial branch (lines 61-68):
`height_m = ((height_feet * 12) + height_inches) * 0.0254`. -/
def imperial_height_m (height_feet height_inches : ℕ) : ℚ :=
  ((height_feet * 12 : ℕ) + height_inches : ℕ) * 0.0254

/-- Imperial display conversion (line 213): `current_lbs = weight_kg / 0.453592`. -/
def current_lbs (weight_kg : ℚ) : ℚ := weight_kg / 0.453592

/-- Line 204: `ideal_bmi_min = 18.5`. -/
def ideal_bmi_min : ℚ := 18.5

/-- Line 205: `ideal_bmi_max = 25`. -/
def ideal_bmi_max : ℚ := 25

/-- Line 206: `ideal_weight_min = ideal_bmi_min * (height_m ** 2)`. -/
def ideal_weight_min (height_m : ℚ) : ℚ := ideal_bmi_min * (height_m ^ 2)

/-- Line 207: `ideal_weight_max = ideal_bmi_max * (height_m ** 2)`. -/
def ideal_weight_max (height_m : ℚ) : ℚ := ideal_bmi_max * (height_m ^ 2)

/-- Outcome of the "To Reach Normal BMI" panel (lines 220-227). -/
inductive WeightPanel
  | toGain (d : ℚ)
  | toLose (d : ℚ)
  | healthy
deriving DecidableEq

/-- The branch structure of lines 220-227: below the ideal range show the
weight to gain, above it the weight to lose, otherwise the
"You're in the healthy range!" success message. -/
def weightPanel (weight_kg height_m : ℚ) : WeightPanel :=
  if weight_kg < ideal_weight_min height_m then
    WeightPanel.toGain (ideal_weight_min height_m - weight_kg)
  else if weight_kg > ideal_weight_max height_m then
    WeightPanel.toLose (weight_kg - ideal_weight_max height_m)
  else
    WeightPanel.healthy

/-- The recommendation table of `get_recommendations` (lines 96-125). -/
def recommendations_table : List (String × List String) :=
  [("Underweight",
    ["Increase caloric intake with nutrient-dense foods",
     "Focus on strength training exercises",
     "Consult with a nutritionist for a meal plan",
     "Eat more frequent, smaller meals throughout the day"]),
   ("Normal weight",
    ["Maintain current healthy habits",
     "Continue regular physical activity",
     "Eat a balanced diet with variety",
     "Stay hydrated and get adequate sleep"]),
   ("Overweight",
    ["Gradually reduce caloric intake",
     "Increase physical activity to 150+ minutes per week",
     "Focus on whole foods and reduce processed foods",
     "Consider consulting a healthcare professional"]),
   ("Obese",
    ["Consult with a healthcare professional",
     "Create a structured weight loss plan",
     "Start with low-impact exercises like walking",
     "Consider working with a registered dietitian",
     "Set realistic, achievable goals"])]

/-- Function `get_recommendations` (lines 96-125): `recommendations.get(category, [])`.
The `bmi` argument is accepted but unused, as in the source. -/
def get_recommendations (bmi : ℚ) (category : String) : List String :=
  (recommendations_table.lookup category).getD []

end BMICalc

namespace BMICalc

/-- Claim C1: for weight 70 kg and height 170 cm we have
`calculate_bmi 70 1.7 = 7000/289 ≈ 24.2`, and `get_bmi_category` of that
value names the category "Normal weight". -/
theorem c1_bmi_70kg_170cm :
    calculate_bmi 70 1.7 = 7000 / 289 ∧
    24.2 ≤ calculate_bmi 70 1.7 ∧ calculate_bmi 70 1.7 < 24.25 ∧
    (get_bmi_category (calculate_bmi 70 1.7)).1 = "Normal weight" := by
  refine ⟨by norm_num [calculate_bmi], by norm_num [calculate_bmi], ?_, ?_⟩
  · norm_num [calculate_bmi]
  · have h : calculate_bmi 70 1.7 = 7000 / 289 := by norm_num [calculate_bmi]
    rw [h]
    norm_num [get_bmi_category]

/-- Claim C2: `get_bmi_category` is a total four-way range classification.
For every rational BMI value the returned category name is "Underweight"
exactly when `bmi < 18.5`, "Normal weight" exactly when `18.5 ≤ bmi < 25`,
"Overweight" exactly when `25 ≤ bmi < 30`, and "Obese" exactly when
`30 ≤ bmi`; the four ranges are exhaustive and mutually exclusive. -/
theorem c2_bmi_category_total_classification (bmi : ℚ) :
    ((get_bmi_category bmi).1 = "Underweight" ↔ bmi < 18.5) ∧
    ((get_bmi_category bmi).1 = "Normal weight" ↔ 18.5 ≤ bmi ∧ bmi < 25) ∧
    ((get_bmi_category bmi).1 = "Overweight" ↔ 25 ≤ bmi ∧ bmi < 30) ∧
    ((get_bmi_category bmi).1 = "Obese" ↔ 30 ≤ bmi) := by
  unfold get_bmi_category
  split_ifs with h1 h2 h3 <;>
    refine ⟨⟨fun hc => ?_, fun hr => ?_⟩, ⟨fun hc => ?_, fun hr => ?_⟩,
            ⟨fun hc => ?_, fun hr => ?_⟩, ⟨fun hc => ?_, fun hr => ?_⟩⟩ <;>
    simp_all <;>
    first
      | linarith
      | (constructor <;> linarith)
      | (rcases hr with ⟨hr1, hr2⟩ <;> linarith)

/-- Claim C3: under the number-input widget bounds (metric: weight in
[1, 300] kg, height in [50, 250] cm; imperial: weight in [1, 700] lbs,
feet in [1, 8], inches in [0, 11]) the derived `weight_kg` and `height_m`
are strictly positive, `height_m` is nonzero (so `calculate_bmi` never
divides by zero), and the resulting BMI is strictly positive. -/
theorem c3_widget_bounds_positive_bmi :
    (∀ weight height : ℚ, 1 ≤ weight → weight ≤ 300 → 50 ≤ height → height ≤ 250 →
      0 < metric_weight_kg weight ∧ 0 < metric_height_m height ∧
      metric_height_m height ≠ 0 ∧
      0 < calculate_bmi (metric_weight_kg weight) (metric_height_m height)) ∧
    (∀ (weight_lbs : ℚ) (height_feet height_inches : ℕ),
      1 ≤ weight_lbs → weight_lbs ≤ 700 → 1 ≤ height_feet → height_feet ≤ 8 →
      height_inches ≤ 11 →
      0 < imperial_weight_kg weight_lbs ∧ 0 < imperial_height_m height_feet height_inches ∧
      imperial_height_m height_feet height_inches ≠ 0 ∧
      0 < calculate_bmi (imperial_weight_kg weight_lbs)
            (imperial_height_m height_feet height_inches)) := by
  constructor
  · intro weight height hw1 _ hh1 _
    have hw : 0 < metric_weight_kg weight := by unfold metric_weight_kg; linarith
    have hh : 0 < metric_height_m height := by
      unfold metric_height_m
      have : (0 : ℚ) < height := by linarith
      positivity
    exact ⟨hw, hh, ne_of_gt hh, div_pos hw (pow_pos hh 2)⟩
  · intro weight_lbs height_feet height_inches hl1 _ hf1 _ _
    have hw : 0 < imperial_weight_kg weight_lbs := by
      unfold imperial_weight_kg
      have : (0 : ℚ) < weight_lbs := by linarith
      positivity
    have hh : 0 < imperial_height_m height_feet height_inches := by
      unfold imperial_height_m
      have hn : 0 < height_feet * 12 + height_inches := by omega
      have : (0 : ℚ) < ((height_feet * 12 + height_inches : ℕ) : ℚ) := by
        exact_mod_cast hn
      positivity
    exact ⟨hw, hh, ne_of_gt hh, div_pos hw (pow_pos hh 2)⟩

/-- Witness for C3 at the widget defaults: weight 70 kg / height 170 cm in
metric, 154 lbs / 5 ft 7 in in imperial. -/
theorem c3_widget_bounds_positive_bmi_witness :
    0 < calculate_bmi (metric_weight_kg 70) (metric_height_m 170) ∧
    0 < calculate_bmi (imperial_weight_kg 154) (imperial_height_m 5 7) :=
  ⟨(c3_widget_bounds_positive_bmi.1 70 170 (by norm_num) (by norm_num)
      (by norm_num) (by norm_num)).2.2.2,
   (c3_widget_bounds_positive_bmi.2 154 5 7 (by norm_num) (by norm_num)
      (by norm_num) (by norm_num) (by norm_num)).2.2.2⟩

/-- Claim C7: `get_recommendations` is a static lookup: its result does not
depend on the `bmi` argument, every category present in the table maps to
its fixed non-empty list of recommendation strings, any category absent
from the table maps to the empty list, and the table's keys are exactly
the four category names. -/
theorem c7_recommendations_static_lookup (bmi bmi' : ℚ) (category : String) :
    get_recommendations bmi category = get_recommendations bmi' category ∧
    (∀ l, recommendations_table.lookup category = some l →
      get_recommendations bmi category = l ∧ l ≠ []) ∧
    (recommendations_table.lookup category = none →
      get_recommendations bmi category = []) ∧
    recommendations_table.map Prod.fst =
      ["Underweight", "Normal weight", "Overweight", "Obese"] := by
  refine ⟨rfl, ?_, ?_, rfl⟩
  · intro l hl
    refine ⟨by unfold get_recommendations; rw [hl]; rfl, ?_⟩
    simp only [recommendations_table, List.lookup] at hl
    repeat' split at hl
    all_goals
      first
        | exact Option.noConfusion hl
        | (intro hc; rw [hc] at hl; exact List.noConfusion (Option.some.inj hl))
  · intro h
    unfold get_recommendations
    rw [h]
    rfl

/-- Witness for C7: at category "Normal weight" the lookup yields the fixed
table entry, and an unknown category yields the empty list. -/
theorem c7_recommendations_static_lookup_witness :
    (get_recommendations 20 "Normal weight" =
      ["Maintain current healthy habits",
       "Continue regular physical activity",
       "Eat a balanced diet with variety",
       "Stay hydrated and get adequate sleep"] ∧
      ["Maintain current healthy habits",
       "Continue regular physical activity",
       "Eat a balanced diet with variety",
       "Stay hydrated and get adequate sleep"] ≠ ([] : List String)) ∧
    get_recommendations 20 "Unknown" = [] :=
  ⟨(c7_recommendations_static_lookup 20 30 "Normal weight").2.1 _ (by rfl),
   (c7_recommendations_static_lookup 20 30 "Unknown").2.2.1 (by rfl)⟩

/-- Claim C9: for positive height the health-metrics panel shows the
"You're in the healthy range!" success message exactly when
`18.5 ≤ BMI ≤ 25`; in particular at BMI exactly 25 (weight 25 kg, height
1 m) the success message is shown while `get_bmi_category` names the
category "Overweight" for the same input. -/
theorem c9_healthy_range_iff (weight_kg height_m : ℚ) (hh : 0 < height_m) :
    (weightPanel weight_kg height_m = WeightPanel.healthy ↔
      18.5 ≤ calculate_bmi weight_kg height_m ∧ calculate_bmi weight_kg height_m ≤ 25) ∧
    (weightPanel 25 1 = WeightPanel.healthy ∧
      (get_bmi_category (calculate_bmi 25 1)).1 = "Overweight") := by
  have h2 : 0 < height_m ^ 2 := pow_pos hh 2
  have key : weightPanel weight_kg height_m = WeightPanel.healthy ↔
      ideal_weight_min height_m ≤ weight_kg ∧ weight_kg ≤ ideal_weight_max height_m := by
    unfold weightPanel
    split_ifs with hlt hgt
    · constructor
      · intro h
        exact h.elim
      · intro h
        exact absurd h.1 (not_le.mpr hlt)
    · constructor
      · intro h
        exact h.elim
      · intro h
        exact absurd h.2 (not_le.mpr hgt)
    · exact iff_of_true (by trivial) ⟨not_lt.mp hlt, not_lt.mp hgt⟩
  refine ⟨?_, ?_, ?_⟩
  · rw [key]
    unfold ideal_weight_min ideal_weight_max ideal_bmi_min ideal_bmi_max calculate_bmi
    rw [le_div_iff₀ h2, div_le_iff₀ h2]
  · norm_num [weightPanel, ideal_weight_min, ideal_weight_max, ideal_bmi_min, ideal_bmi_max]
  · norm_num [calculate_bmi, get_bmi_category]

/-- Witness for C9 at weight 70 kg, height 1.7 m. -/
theorem c9_healthy_range_iff_witness :
    (weightPanel 70 1.7 = WeightPanel.healthy ↔
      18.5 ≤ calculate_bmi 70 1.7 ∧ calculate_bmi 70 1.7 ≤ 25) ∧
    (weightPanel 25 1 = WeightPanel.healthy ∧
      (get_bmi_category (calculate_bmi 25 1)).1 = "Overweight") :=
  c9_healthy_range_iff 70 1.7 (by norm_num)

/-- Claim C10: in imperial mode the displayed current weight round-trips
through the unit conversion: for every `weight_lbs`,
`(weight_lbs * 0.453592) / 0.453592 = weight_lbs` exactly over ℚ. -/
theorem c10_imperial_weight_roundtrip (weight_lbs : ℚ) :
    current_lbs (imperial_weight_kg weight_lbs) = weight_lbs := by
  unfold current_lbs imperial_weight_kg
  rw [mul_div_assoc]
  norm_num

end BMICalc

namespace SessionDemo

/-- A shopping-cart line item as appended by the "Add to Cart" handler of
`05_advanced_features.py` (lines 205-210). -/
structure CartItem where
  product : String
  quantity : ℕ
  price : ℚ
deriving DecidableEq

/-- The session-state keys used by the demo (`counter`, `history`, `cart`);
`none` models a key not yet present in `st.session_state`.  History entries
are (action, timestamp) pairs; timestamps are abstracted to naturals. -/
structure SessionState where
  counter : Option ℤ
  history : Option (List (String × ℕ))
  cart : Option (List CartItem)
deriving DecidableEq

/-- A fresh session: none of the keys present yet. -/
def initialSession : SessionState := ⟨none, none, none⟩

/-- Guarded initialisation of `counter` (lines 151-152):
`if 'counter' not in st.session_state: st.session_state.counter = 0`. -/
def initCounter (s : SessionState) : SessionState :=
  match s.counter with
  | none => { s with counter := some 0 }
  | some _ => s

/-- Guarded initialisation of `history` (lines 154-155). -/
def initHistory (s : SessionState) : SessionState :=
  match s.history with
  | none => { s with history := some [] }
  | some _ => s

/-- Guarded initialisation of `cart` (lines 187-188). -/
def initCart (s : SessionState) : SessionState :=
  match s.cart with
  | none => { s with cart := some [] }
  | some _ => s

/-- The `products` table (lines 191-197). -/
def products : List (String × ℚ) :=
  [("Apple", 1.50), ("Banana", 0.75), ("Orange", 1.25), ("Milk", 3.50), ("Bread", 2.00)]

/-- At most one button returns True per rerun, so a rerun is driven by one
event: a button press, or `idle` for a rerun with no button pressed.
`addToCart` carries the selectbox and quantity-widget values. -/
inductive Event
  | idle
  | increment (t : ℕ)
  | decrement (t : ℕ)
  | reset
  | addToCart (product : String) (quantity : ℕ)
  | clearCart
deriving DecidableEq

/-- The three counter buttons (lines 159-172).  Increment and decrement read
and update `counter` and append to `history`; they fail (as the Python
attribute accesses would) if the keys are absent, which the preceding
guarded initialisations rule out. -/
def counterButtons (e : Event) (s : SessionState) : Option SessionState :=
  match e with
  | Event.increment t =>
    match s.counter, s.history with
    | some c, some h =>
        some { s with counter := some (c + 1), history := some (h ++ [("increment", t)]) }
    | _, _ => none
  | Event.decrement t =>
    match s.counter, s.history with
    | some c, some h =>
        some { s with counter := some (c - 1), history := some (h ++ [("decrement", t)]) }
    | _, _ => none
  | Event.reset => some { s with counter := some 0, history := some [] }
  | _ => some s

/-- The two cart buttons (lines 205-210 and 224-226).  Add to Cart appends a
record with the selected product, quantity and `products[selected_product]`;
the dict access fails (Python `KeyError`) for a product not in the table. -/
def cartButtons (e : Event) (s : SessionState) : Option SessionState :=
  match e with
  | Event.addToCart p q =>
    match s.cart, products.lookup p with
    | some l, some price => some { s with cart := some (l ++ [⟨p, q, price⟩]) }
    | _, _ => none
  | Event.clearCart => some { s with cart := some [] }
  | _ => some s

/-- One rerun of the script: the guarded initialisations and button handlers
in source order (counter init, history init, counter buttons, cart init,
cart buttons). -/
def rerun (e : Event) (s : SessionState) : Option SessionState :=
  (counterButtons e (initHistory (initCounter s))).bind
    (fun s2 => cartButtons e (initCart s2))

/-- The widget constraints on an add-to-cart rerun: the selectbox only
offers keys of `products` and the quantity widget is bounded to [1, 10];
the other events carry no widget data. -/
def Event.admissible : Event → Prop
  | Event.addToCart p q => (products.lookup p).isSome ∧ 1 ≤ q ∧ q ≤ 10
  | _ => True

/-- The events of the counter demo (the three buttons of lines 159-172). -/
def isCounterEvent : Event → Prop
  | Event.increment _ => True
  | Event.decrement _ => True
  | Event.reset => True
  | _ => False

/-- Session states reachable from a fresh session by reruns whose events
satisfy `P`. -/
inductive ReachableVia (P : Event → Prop) : SessionState → Prop
  | init : ReachableVia P initialSession
  | step {s s' : SessionState} {e : Event} :
      ReachableVia P s → P e → rerun e s = some s' → ReachableVia P s'

/-- Number of entries of `history` recording the action `a`. -/
def countAction (a : String) (h : List (String × ℕ)) : ℕ :=
  (h.filter (fun p => p.1 == a)).length

/-- The counter/history invariant of claim C5. -/
def counterMatchesHistory (s : SessionState) : Prop :=
  (s.counter = none ∧ s.history = none) ∨
  (∃ c h, s.counter = some c ∧ s.history = some h ∧
    c = (countAction "increment" h : ℤ) - (countAction "decrement" h : ℤ))

/-- Every cart item records a product of the `products` table, a quantity
within the quantity-widget bounds [1, 10], and the table price of that
product. -/
def cartItemOK (it : CartItem) : Prop :=
  products.lookup it.product = some it.price ∧ 1 ≤ it.quantity ∧ it.quantity ≤ 10

/-- The cart invariant of claim C8. -/
def cartWellFormed (s : SessionState) : Prop :=
  ∀ l, s.cart = some l → ∀ it ∈ l, cartItemOK it

theorem initCounter_eq (s : SessionState) :
    initCounter s = { s with counter := some (s.counter.getD 0) } := by
  obtain ⟨sc, sh, scart⟩ := s
  cases sc <;> simp [initCounter]

theorem initHistory_eq (s : SessionState) :
    initHistory s = { s with history := some (s.history.getD []) } := by
  obtain ⟨sc, sh, scart⟩ := s
  cases sh <;> simp [initHistory]

theorem initCart_eq (s : SessionState) :
    initCart s = { s with cart := some (s.cart.getD []) } := by
  obtain ⟨sc, sh, scart⟩ := s
  cases scart <;> simp [initCart]

theorem rerun_idle (s : SessionState) :
    rerun Event.idle s =
      some ⟨some (s.counter.getD 0), some (s.history.getD []), some (s.cart.getD [])⟩ := by
  simp [rerun, initCounter_eq, initHistory_eq, initCart_eq, counterButtons, cartButtons]

theorem rerun_increment (t : ℕ) (s : SessionState) :
    rerun (Event.increment t) s =
      some ⟨some (s.counter.getD 0 + 1), some (s.history.getD [] ++ [("increment", t)]),
            some (s.cart.getD [])⟩ := by
  simp [rerun, initCounter_eq, initHistory_eq, initCart_eq, counterButtons, cartButtons]

theorem rerun_decrement (t : ℕ) (s : SessionState) :
    rerun (Event.decrement t) s =
      some ⟨some (s.counter.getD 0 - 1), some (s.history.getD [] ++ [("decrement", t)]),
            some (s.cart.getD [])⟩ := by
  simp [rerun, initCounter_eq, initHistory_eq, initCart_eq, counterButtons, cartButtons]

theorem rerun_reset (s : SessionState) :
    rerun Event.reset s = some ⟨some 0, some [], some (s.cart.getD [])⟩ := by
  simp [rerun, initCounter_eq, initHistory_eq, initCart_eq, counterButtons, cartButtons]

theorem rerun_clearCart (s : SessionState) :
    rerun Event.clearCart s =
      some ⟨some (s.counter.getD 0), some (s.history.getD []), some []⟩ := by
  simp [rerun, initCounter_eq, initHistory_eq, initCart_eq, counterButtons, cartButtons]

theorem rerun_addToCart (p : String) (q : ℕ) (price : ℚ) (s : SessionState)
    (hp : products.lookup p = some price) :
    rerun (Event.addToCart p q) s =
      some ⟨some (s.counter.getD 0), some (s.history.getD []),
            some (s.cart.getD [] ++ [⟨p, q, price⟩])⟩ := by
  simp [rerun, initCounter_eq, initHistory_eq, initCart_eq, counterButtons, cartButtons, hp]

theorem countAction_append (a : String) (h1 h2 : List (String × ℕ)) :
    countAction a (h1 ++ h2) = countAction a h1 + countAction a h2 := by
  simp [countAction, List.filter_append]

theorem countAction_incr_incr (t : ℕ) : countAction "increment" [("increment", t)] = 1 := rfl

theorem countAction_decr_incr (t : ℕ) : countAction "decrement" [("increment", t)] = 0 := rfl

theorem countAction_incr_decr (t : ℕ) : countAction "increment" [("decrement", t)] = 0 := rfl

theorem countAction_decr_decr (t : ℕ) : countAction "decrement" [("decrement", t)] = 1 := rfl

/-- Claim C4: session-variable lifecycle.  `counter`, `history` and `cart`
are created on first access if absent (with values 0, [] and []); when a
variable already exists, its guarded initialisation leaves it unchanged;
a Reset rerun sets counter to 0 and history to []; a Clear Cart rerun sets
cart to []. -/
theorem c4_session_lifecycle (s : SessionState) :
    (s.counter = none → (initCounter s).counter = some 0) ∧
    (∀ c, s.counter = some c → (initCounter s).counter = some c) ∧
    (s.history = none → (initHistory s).history = some []) ∧
    (∀ h, s.history = some h → (initHistory s).history = some h) ∧
    (s.cart = none → (initCart s).cart = some []) ∧
    (∀ l, s.cart = some l → (initCart s).cart = some l) ∧
    (∀ s', rerun Event.reset s = some s' → s'.counter = some 0 ∧ s'.history = some []) ∧
    (∀ s', rerun Event.clearCart s = some s' → s'.cart = some []) := by
  refine ⟨?_, ?_, ?_, ?_, ?_, ?_, ?_, ?_⟩
  · intro h
    rw [initCounter_eq, h]
    rfl
  · intro c h
    rw [initCounter_eq, h]
    rfl
  · intro h
    rw [initHistory_eq, h]
    rfl
  · intro h' h
    rw [initHistory_eq, h]
    rfl
  · intro h
    rw [initCart_eq, h]
    rfl
  · intro l h
    rw [initCart_eq, h]
    rfl
  · intro s' h
    rw [rerun_reset] at h
    obtain rfl := Option.some.inj h
    exact ⟨rfl, rfl⟩
  · intro s' h
    rw [rerun_clearCart] at h
    obtain rfl := Option.some.inj h
    rfl

/-- Witness for C4 on a fresh session: the guarded initialisations create
counter = 0 and cart = [], a Reset rerun yields counter 0 and history [],
and a Clear Cart rerun yields cart []. -/
theorem c4_session_lifecycle_witness :
    (initCounter initialSession).counter = some 0 ∧
    (initCart initialSession).cart = some [] ∧
    ((⟨some 0, some [], some []⟩ : SessionState).counter = some 0 ∧
      (⟨some 0, some [], some []⟩ : SessionState).history = some []) ∧
    (⟨some 0, some [], some []⟩ : SessionState).cart = some [] :=
  ⟨(c4_session_lifecycle initialSession).1 rfl,
   (c4_session_lifecycle initialSession).2.2.2.2.1 rfl,
   (c4_session_lifecycle initialSession).2.2.2.2.2.2.1 ⟨some 0, some [], some []⟩ (by rfl),
   (c4_session_lifecycle initialSession).2.2.2.2.2.2.2 ⟨some 0, some [], some []⟩ (by rfl)⟩

/-- Claim C5: in every state reachable from a fresh session by Increment,
Decrement and Reset reruns, the counter equals the number of "increment"
entries minus the number of "decrement" entries stored in the history. -/
theorem c5_counter_matches_history (s : SessionState)
    (hs : ReachableVia isCounterEvent s) : counterMatchesHistory s := by
  induction hs with
  | init => exact Or.inl ⟨rfl, rfl⟩
  | step hr hp hstep ih =>
    rename_i s s' e
    cases e with
    | idle => exact absurd hp (by simp [isCounterEvent])
    | addToCart p q => exact absurd hp (by simp [isCounterEvent])
    | clearCart => exact absurd hp (by simp [isCounterEvent])
    | increment t =>
      rw [rerun_increment] at hstep
      obtain rfl := Option.some.inj hstep
      rcases ih with ⟨hc, hh⟩ | ⟨c, h, hc, hh, heq⟩
      · right
        refine ⟨s.counter.getD 0 + 1, s.history.getD [] ++ [("increment", t)], rfl, rfl, ?_⟩
        rw [hc, hh]
        simp only [Option.getD_none, List.nil_append, countAction_incr_incr,
          countAction_decr_incr]
        decide
      · right
        refine ⟨s.counter.getD 0 + 1, s.history.getD [] ++ [("increment", t)], rfl, rfl, ?_⟩
        rw [hc, hh]
        simp only [Option.getD_some, countAction_append, countAction_incr_incr,
          countAction_decr_incr]
        push_cast
        omega
    | decrement t =>
      rw [rerun_decrement] at hstep
      obtain rfl := Option.some.inj hstep
      rcases ih with ⟨hc, hh⟩ | ⟨c, h, hc, hh, heq⟩
      · right
        refine ⟨s.counter.getD 0 - 1, s.history.getD [] ++ [("decrement", t)], rfl, rfl, ?_⟩
        rw [hc, hh]
        simp only [Option.getD_none, List.nil_append, countAction_incr_decr,
          countAction_decr_decr]
        decide
      · right
        refine ⟨s.counter.getD 0 - 1, s.history.getD [] ++ [("decrement", t)], rfl, rfl, ?_⟩
        rw [hc, hh]
        simp only [Option.getD_some, countAction_append, countAction_incr_decr,
          countAction_decr_decr]
        push_cast
        omega
    | reset =>
      rw [rerun_reset] at hstep
      obtain rfl := Option.some.inj hstep
      right
      exact ⟨0, [], rfl, rfl, by decide⟩

/-- Witness for C5: the state after one Increment rerun from a fresh
session satisfies the counter/history invariant. -/
theorem c5_counter_matches_history_witness :
    counterMatchesHistory ⟨some 1, some [("increment", 0)], some []⟩ :=
  c5_counter_matches_history _
    (@ReachableVia.step isCounterEvent initialSession
      ⟨some 1, some [("increment", 0)], some []⟩ (Event.increment 0)
      ReachableVia.init trivial (by decide))

/-- Claim C6: frame conditions of the two clearing buttons.  A Reset rerun
leaves an existing cart unchanged, and a Clear Cart rerun leaves an
existing counter and an existing history unchanged. -/
theorem c6_reset_clear_frame (s : SessionState) :
    (∀ s' l, rerun Event.reset s = some s' → s.cart = some l → s'.cart = some l) ∧
    (∀ s' c h, rerun Event.clearCart s = some s' →
      (s.counter = some c → s'.counter = some c) ∧
      (s.history = some h → s'.history = some h)) := by
  constructor
  · intro s' l hstep hl
    rw [rerun_reset] at hstep
    obtain rfl := Option.some.inj hstep
    rw [show (⟨some 0, some [], some (s.cart.getD [])⟩ : SessionState).cart
          = some (s.cart.getD []) from rfl, hl]
    rfl
  · intro s' c h hstep
    rw [rerun_clearCart] at hstep
    obtain rfl := Option.some.inj hstep
    constructor
    · intro hc
      rw [show (⟨some (s.counter.getD 0), some (s.history.getD []), some []⟩ :
            SessionState).counter = some (s.counter.getD 0) from rfl, hc]
      rfl
    · intro hh
      rw [show (⟨some (s.counter.getD 0), some (s.history.getD []), some []⟩ :
            SessionState).history = some (s.history.getD []) from rfl, hh]
      rfl

/-- Witness for C6 on the state with counter 5, one history entry and one
cart item. -/
theorem c6_reset_clear_frame_witness :
    ((⟨some 0, some [], some [⟨"Apple", 1, 1.50⟩]⟩ : SessionState).cart
        = some [⟨"Apple", 1, 1.50⟩] ∧
      (⟨some 5, some [("increment", 3)], some []⟩ : SessionState).counter = some 5 ∧
      (⟨some 5, some [("increment", 3)], some []⟩ : SessionState).history
        = some [("increment", 3)]) :=
  ⟨(c6_reset_clear_frame ⟨some 5, some [("increment", 3)], some [⟨"Apple", 1, 1.50⟩]⟩).1
      ⟨some 0, some [], some [⟨"Apple", 1, 1.50⟩]⟩ [⟨"Apple", 1, 1.50⟩] (by rfl) rfl,
   ((c6_reset_clear_frame ⟨some 5, some [("increment", 3)], some [⟨"Apple", 1, 1.50⟩]⟩).2
      ⟨some 5, some [("increment", 3)], some []⟩ 5 [("increment", 3)] (by rfl)).1 rfl,
   ((c6_reset_clear_frame ⟨some 5, some [("increment", 3)], some [⟨"Apple", 1, 1.50⟩]⟩).2
      ⟨some 5, some [("increment", 3)], some []⟩ 5 [("increment", 3)] (by rfl)).2 rfl⟩

/-- Claim C8: every button rerun admitted by the widgets (Increment,
Decrement, Reset, Add to Cart with a product of the table and quantity in
[1, 10], Clear Cart) preserves well-formedness of the session variables: in
the typed embedding counter is an integer and history a list of
(action, timestamp) pairs by construction, and every reachable cart item
records a key of the `products` table, a quantity in [1, 10], and the
table price of its product. -/
theorem c8_cart_well_formed (s : SessionState)
    (hs : ReachableVia Event.admissible s) : cartWellFormed s := by
  induction hs with
  | init =>
    intro l hl
    exact Option.noConfusion hl
  | step hr hp hstep ih =>
    rename_i s s' e
    have hOld : ∀ it, it ∈ s.cart.getD [] → cartItemOK it := by
      intro it hit
      cases hc : s.cart with
      | none => rw [hc] at hit; cases hit
      | some l0 => rw [hc] at hit; exact ih l0 hc it hit
    cases e with
    | idle =>
      rw [rerun_idle] at hstep
      obtain rfl := Option.some.inj hstep
      intro l hl
      obtain rfl := Option.some.inj hl
      exact hOld
    | increment t =>
      rw [rerun_increment] at hstep
      obtain rfl := Option.some.inj hstep
      intro l hl
      obtain rfl := Option.some.inj hl
      exact hOld
    | decrement t =>
      rw [rerun_decrement] at hstep
      obtain rfl := Option.some.inj hstep
      intro l hl
      obtain rfl := Option.some.inj hl
      exact hOld
    | reset =>
      rw [rerun_reset] at hstep
      obtain rfl := Option.some.inj hstep
      intro l hl
      obtain rfl := Option.some.inj hl
      exact hOld
    | clearCart =>
      rw [rerun_clearCart] at hstep
      obtain rfl := Option.some.inj hstep
      intro l hl
      obtain rfl := Option.some.inj hl
      intro it hit
      cases hit
    | addToCart p q =>
      obtain ⟨hsome, hq1, hq10⟩ := hp
      obtain ⟨price, hprice⟩ := Option.isSome_iff_exists.mp hsome
      rw [rerun_addToCart p q price s hprice] at hstep
      obtain rfl := Option.some.inj hstep
      intro l hl
      obtain rfl := Option.some.inj hl
      intro it hit
      rcases List.mem_append.mp hit with hold | hnew
      · exact hOld it hold
      · rcases List.mem_singleton.mp hnew with rfl
        exact ⟨hprice, hq1, hq10⟩

/-- Witness for C8: the state reached by one admissible Add to Cart rerun
(product "Apple", quantity 2) from a fresh session has a well-formed cart. -/
theorem c8_cart_well_formed_witness :
    cartWellFormed ⟨some 0, some [], some [⟨"Apple", 2, 1.50⟩]⟩ :=
  c8_cart_well_formed _
    (@ReachableVia.step Event.admissible initialSession
      ⟨some 0, some [], some [⟨"Apple", 2, 1.50⟩]⟩ (Event.addToCart "Apple" 2)
      ReachableVia.init ⟨by decide, by decide, by decide⟩
      (by rw [rerun_addToCart "Apple" 2 1.50 initialSession rfl]; rfl))

end SessionDemo
